import Mathlib

/-!
Shallow embedding of the Pfeiffer TPG26x serial driver in
src/gauge_controller.py.

The serial line is modelled as a script of read results together with a log
of the writes performed: each call to readline consumes the next scripted
reply (an exhausted script models a timeout and yields the empty string,
exactly as pyserial readline does on timeout), and each write appends to the
log.  Python exceptions raised by the driver are modelled as values of
ProtocolError, named after the error taxonomy of the specification: IOError
on a negative acknowledge becomes NegativeAcknowledge, IOError on any other
acknowledge line becomes UnexpectedResponse, ValueError on a bad gauge index
becomes InvalidArgument, ValueError and IndexError while splitting and
parsing a payload become MalformedPayload, and KeyError on a code table
becomes UnknownCode / UnknownGaugeCode.

Numeric payload fields parsed by the Python builtins int() and float() are
modelled over Int and the rationals: pyInt and pyFloat accept the decimal
and scientific grammars those builtins accept on the wire payloads of this
device (an optional sign, digits, an optional fraction and an optional
exponent, with surrounding blanks), and return the exactly represented
value.
-/

deriving instance DecidableEq for Except

/-- One serial endpoint: the replies the device will deliver, one per read,
and the log of everything written to the line, in order. -/
structure SerialPort where
  script : List String
  writes : List String
deriving Repr, DecidableEq

/-- Append one write to the log. -/
def SerialPort.write (p : SerialPort) (s : String) : SerialPort :=
  { p with writes := p.writes ++ [s] }

/-- Deliver the next scripted reply; an exhausted script is a timeout and
reads as the empty string. -/
def SerialPort.readline (p : SerialPort) : String × SerialPort :=
  match p.script with
  | [] => ("", p)
  | r :: rest => (r, { p with script := rest })

/-- The error taxonomy of the specification, covering the exceptions the
driver raises. -/
inductive ProtocolError where
  | NegativeAcknowledge : ProtocolError
  | UnexpectedResponse : String → ProtocolError
  | InvalidArgument : ProtocolError
  | MalformedPayload : String → ProtocolError
  | UnknownCode : Int → ProtocolError
  | UnknownGaugeCode : String → ProtocolError
deriving Repr, DecidableEq

/-- Model of the Python str.rstrip method: remove every trailing character
of `s` that occurs in `chars`. -/
def pyRstrip (s : String) (chars : String) : String :=
  String.mk ((s.data.reverse.dropWhile (fun c => c ∈ chars.data)).reverse)

/-- Model of the Python str.strip method with no argument: remove leading
and trailing whitespace. -/
def pyTrim (s : String) : String :=
  String.mk (((s.data.dropWhile Char.isWhitespace).reverse.dropWhile Char.isWhitespace).reverse)

/-- Split a character list at every occurrence of the separator; the Python
str.split semantics on a one character separator, so the empty list yields
one empty piece. -/
def pySplitAux (sep : Char) : List Char → List (List Char)
  | [] => [[]]
  | c :: rest =>
    match pySplitAux sep rest with
    | [] => [[]]
    | h :: t => if c = sep then [] :: h :: t else (c :: h) :: t

/-- Model of the Python str.split method on a one character separator. -/
def pySplit (s : String) (sep : Char) : List String :=
  (pySplitAux sep s.data).map String.mk

/-- Digits read most significant first, as Python int() reads them. -/
def digitsToNat (ds : List Char) : Nat :=
  ds.foldl (fun a c => a * 10 + (c.toNat - 48)) 0

/-- A nonempty all-digit run, the body of an integer literal. -/
def allDigits (ds : List Char) : Bool :=
  !ds.isEmpty && ds.all (fun c => c.isDigit)

/-- Model of the Python builtin int(): optional surrounding blanks, an
optional sign, then digits; anything else raises, modelled as none. -/
def pyInt (s : String) : Option Int :=
  match (pyTrim s).data with
  | '-' :: rest => if allDigits rest then some (-(digitsToNat rest : Int)) else none
  | '+' :: rest => if allDigits rest then some (digitsToNat rest) else none
  | cs => if allDigits cs then some (digitsToNat cs) else none

/-- A possibly empty all-digit run. -/
def digitsOnly (ds : List Char) : Bool :=
  ds.all (fun c => c.isDigit)

/-- Split a mantissa at its decimal point: integer digits and fractional
digits, or none when the shape is not digits-point-digits with at least one
digit overall. -/
def splitMantissa (cs : List Char) : Option (List Char × List Char) :=
  let ip := cs.takeWhile (fun c => c ≠ '.')
  match cs.dropWhile (fun c => c ≠ '.') with
  | [] => if allDigits ip then some (ip, []) else none
  | _ :: fp =>
    if digitsOnly ip && digitsOnly fp && !(ip.isEmpty && fp.isEmpty) then
      some (ip, fp)
    else none

/-- A signed mantissa: the sign and the digit runs on either side of the
decimal point, or none when the shape is wrong. -/
def signedMantissa (cs : List Char) : Option (Bool × List Char × List Char) :=
  match cs with
  | '-' :: rest => (splitMantissa rest).map (fun q => (true, q))
  | '+' :: rest => (splitMantissa rest).map (fun q => (false, q))
  | _ => (splitMantissa cs).map (fun q => (false, q))

/-- The signed exponent of a scientific literal: optional sign then digits. -/
def parseExponent (cs : List Char) : Option Int :=
  match cs with
  | '-' :: rest => if allDigits rest then some (-(digitsToNat rest : Int)) else none
  | '+' :: rest => if allDigits rest then some (digitsToNat rest) else none
  | _ => if allDigits cs then some (digitsToNat cs) else none

/-- The exact rational value of a parsed literal: sign, integer digits,
fraction digits and decimal exponent.  The value is assembled with integer
arithmetic and one mkRat so that it evaluates inside the kernel. -/
def ratValue (neg : Bool) (ip fp : List Char) (e : Int) : ℚ :=
  let m : Int := (if neg then -1 else 1) * ((digitsToNat ip * 10 ^ fp.length + digitsToNat fp : Nat) : Int)
  let e2 : Int := e - fp.length
  if 0 ≤ e2 then mkRat (m * ((10 ^ e2.toNat : Nat) : Int)) 1
  else mkRat m (10 ^ (-e2).toNat)

/-- Model of the Python builtin float() on the decimal and scientific
grammar the device emits: optional surrounding blanks, an optional sign, a
mantissa with an optional fraction, and an optional e or E exponent.  The
value is returned exactly, over the rationals. -/
def pyFloat (s : String) : Option ℚ :=
  let cs := (pyTrim s).data
  match cs.dropWhile (fun c => c ≠ 'e' ∧ c ≠ 'E') with
  | [] => (signedMantissa cs).map (fun q => ratValue q.1 q.2.1 q.2.2 0)
  | _ :: expPart =>
    match signedMantissa (cs.takeWhile (fun c => c ≠ 'e' ∧ c ≠ 'E')), parseExponent expPart with
    | some q, some e => some (ratValue q.1 q.2.1 q.2.2 e)
    | _, _ => none

/-- The MEASUREMENT_STATUS code table of src/gauge_controller.py; a lookup
of an absent key raises KeyError, modelled as none. -/
def MEASUREMENT_STATUS (code : Int) : Option String :=
  if code = 0 then some "Measurement data okay"
  else if code = 1 then some "Underrange"
  else if code = 2 then some "Overrange"
  else if code = 3 then some "Sensor error"
  else if code = 4 then some "Sensor off (IKR, PKR, IMR, PBR)"
  else if code = 5 then some "No sensor (output: 5,2.0000E-2 [mbar])"
  else if code = 6 then some "Identification error"
  else none

/-- The GAUGE_IDS table of src/gauge_controller.py. -/
def GAUGE_IDS (code : String) : Option String :=
  if code = "TPR" then some "Pirani Gauge or Pirani Capacitive gauge"
  else if code = "IKR9" then some "Cold Cathode Gauge 10E-9 "
  else if code = "IKR11" then some "Cold Cathode Gauge 10E-11 "
  else if code = "PKR" then some "FullRange CC Gauge"
  else if code = "PBR" then some "FullRange BA Gauge"
  else if code = "IMR" then some "Pirani / High Pressure Gauge"
  else if code = "CMR" then some "Linear gauge"
  else if code = "noSEn" then some "no SEnsor"
  else if code = "noid" then some "no identifier"
  else none

/-- The PRESSURE_UNITS table of src/gauge_controller.py. -/
def PRESSURE_UNITS (code : Int) : Option String :=
  if code = 0 then some "mbar"
  else if code = 1 then some "Torr"
  else if code = 2 then some "Pascal"
  else none

namespace GaugeControllerx

/-- End text, chr(3). -/
def ETX : String := "\x03"

/-- Carriage return, chr(13). -/
def CR : String := "\r"

/-- Line feed, chr(10). -/
def LF : String := "\n"

/-- Enquiry, chr(5). -/
def ENQ : String := "\x05"

/-- Acknowledge, chr(6). -/
def ACK : String := "\x06"

/-- Negative acknowledge, chr(21). -/
def NAK : String := "\x15"

/-- Pad carriage return and line feed to a string. -/
def cr_lf (string : String) : String :=
  string ++ CR ++ LF

/-- Send a command and check whether it is positively acknowledged: write
the framed command, read the acknowledge line, and classify it. -/
def send_command (command : String) (p : SerialPort) :
    Except ProtocolError Unit × SerialPort :=
  let p1 := p.write (cr_lf command)
  let (response, p2) := p1.readline
  if response = cr_lf NAK then (.error .NegativeAcknowledge, p2)
  else if response ≠ cr_lf ACK then (.error (.UnexpectedResponse response), p2)
  else (.ok (), p2)

/-- Get the data that is ready on the device: write the enquiry byte, read
one line, and strip the trailing line feeds then the trailing carriage
returns, exactly as data.rstrip(LF).rstrip(CR) does. -/
def get_data (p : SerialPort) : String × SerialPort :=
  let p1 := p.write ENQ
  let (data, p2) := p1.readline
  (pyRstrip (pyRstrip data LF) CR, p2)

/-- Clear the output buffer: drain the pending device output.  In the
scripted transport this consumes the next pending reply. -/
def clear_output_buffer (p : SerialPort) : String × SerialPort :=
  p.readline

/-- Return the pressure measured by gauge 1 or 2: frame and send PR1 or
PR2, poll the data line, and parse status and value from the first two
comma separated fields; the status text is the table entry of the parsed
status code. -/
def pressure_gauge (gauge : Int) (p : SerialPort) :
    Except ProtocolError (ℚ × (Int × String)) × SerialPort :=
  if gauge = 1 ∨ gauge = 2 then
    match send_command ("PR" ++ toString gauge) p with
    | (.error e, p1) => (.error e, p1)
    | (.ok _, p1) =>
      let (reply, p2) := get_data p1
      match pyInt ((pySplit reply ',').getD 0 "") with
      | none => (.error (.MalformedPayload reply), p2)
      | some status_code =>
        match (pySplit reply ',')[1]? with
        | none => (.error (.MalformedPayload reply), p2)
        | some f1 =>
          match pyFloat f1 with
          | none => (.error (.MalformedPayload reply), p2)
          | some value =>
            match MEASUREMENT_STATUS status_code with
            | none => (.error (.UnknownCode status_code), p2)
            | some text => (.ok (value, (status_code, text)), p2)
  else (.error .InvalidArgument, p)

/-- Return the pressures measured by both gauges: frame and send PRX, poll
the data line, and parse the four comma separated fields in the order the
source evaluates them (status1, value1, status2, value2, then the two table
lookups). -/
def pressure_gauges (p : SerialPort) :
    Except ProtocolError (ℚ × (Int × String) × ℚ × (Int × String)) × SerialPort :=
  match send_command "PRX" p with
  | (.error e, p1) => (.error e, p1)
  | (.ok _, p1) =>
    let (reply, p2) := get_data p1
    match pyInt ((pySplit reply ',').getD 0 "") with
    | none => (.error (.MalformedPayload reply), p2)
    | some status_code1 =>
      match (pySplit reply ',')[1]? with
      | none => (.error (.MalformedPayload reply), p2)
      | some f1 =>
        match pyFloat f1 with
        | none => (.error (.MalformedPayload reply), p2)
        | some value1 =>
          match (pySplit reply ',')[2]? with
          | none => (.error (.MalformedPayload reply), p2)
          | some f2 =>
            match pyInt f2 with
            | none => (.error (.MalformedPayload reply), p2)
            | some status_code2 =>
              match (pySplit reply ',')[3]? with
              | none => (.error (.MalformedPayload reply), p2)
              | some f3 =>
                match pyFloat f3 with
                | none => (.error (.MalformedPayload reply), p2)
                | some value2 =>
                  match MEASUREMENT_STATUS status_code1 with
                  | none => (.error (.UnknownCode status_code1), p2)
                  | some text1 =>
                    match MEASUREMENT_STATUS status_code2 with
                    | none => (.error (.UnknownCode status_code2), p2)
                    | some text2 =>
                      (.ok (value1, (status_code1, text1), value2, (status_code2, text2)), p2)

/-- Return the gauge identification: frame and send TID, poll the data
line, unpack exactly two comma separated codes, and map each through the
gauge id table. -/
def gauge_identification (p : SerialPort) :
    Except ProtocolError (String × String × String × String) × SerialPort :=
  match send_command "TID" p with
  | (.error e, p1) => (.error e, p1)
  | (.ok _, p1) =>
    let (reply, p2) := get_data p1
    match pySplit reply ',' with
    | [id1, id2] =>
      match GAUGE_IDS id1 with
      | none => (.error (.UnknownGaugeCode id1), p2)
      | some d1 =>
        match GAUGE_IDS id2 with
        | none => (.error (.UnknownGaugeCode id2), p2)
        | some d2 => (.ok (id1, d1, id2, d2), p2)
    | _ => (.error (.MalformedPayload reply), p2)

/-- RS232 communication test: send RST and await its acknowledge, write the
enquiry byte, clear the output buffer, then for each probe character write
it and poll the echoed data (stripping trailing enquiry bytes), finally
send the framed end-of-text byte; the result is whether the concatenated
echoes equal the probe string. -/
def rs232_communication_test (p : SerialPort) :
    Except ProtocolError Bool × SerialPort :=
  match send_command "RST" p with
  | (.error e, p1) => (.error e, p1)
  | (.ok _, p1) =>
    let p2 := p1.write ENQ
    let (_, p3) := clear_output_buffer p2
    let (echo1, p4) :=
      let pa := p3.write "a"
      let (s1, pb) := get_data pa
      (pyRstrip s1 ENQ, pb)
    let (echo2, p5) :=
      let pa := p4.write "1"
      let (s2, pb) := get_data pa
      (pyRstrip s2 ENQ, pb)
    match send_command ETX p5 with
    | (.error e, p6) => (.error e, p6)
    | (.ok _, p6) => (.ok (decide (echo1 ++ echo2 = "a1")), p6)

end GaugeControllerx

namespace SimGaugeControllerx

/-- State of the mock controller SimGaugeControllerx: the port flag set by
open_port and close_port, and the iteration counter advanced by every
pressure read. -/
structure SimState where
  isOpen : Bool
  iteration : Nat
deriving Repr, DecidableEq

/-- Initial pressure, the instance attribute A of the mock. -/
noncomputable def A : ℝ := 1e-6

/-- Decay rate, the instance attribute k of the mock. -/
noncomputable def k : ℝ := 0.15

/-- Small random fluctuation bound, the noise amplitude of the mock. -/
noncomputable def noise_amplitude : ℝ := 1e-9

/-- Floor value for pressure, the instance attribute P_min of the mock. -/
noncomputable def P_min : ℝ := 5e-8

/-- Model of the Python builtin round(x, ndigits) over the reals: round to
the nearest multiple of 10 ^ (-ndigits).  The rare exact tie, which Python
resolves to the even side, is resolved upward here; no argument in this
development sits on a tie. -/
noncomputable def pyRound (x : ℝ) (ndigits : ℕ) : ℝ :=
  (round (x * 10 ^ ndigits) : ℤ) / 10 ^ ndigits

/-- The mock pressure read: floor plus exponentially decaying term plus the
sampled noise, rounded to 9 decimal places, always with status code 0; the
iteration counter advances by one.  The uniform noise sample, drawn by the
source from [-noise_amplitude, noise_amplitude], enters as the oracle
argument noise. -/
noncomputable def pressure_gauge (s : SimState) (noise : ℝ) :
    (ℝ × (Int × String)) × SimState :=
  let decay := A * Real.exp (-k * (s.iteration : ℝ))
  let value := pyRound (P_min + decay + noise) 9
  ((value, (0, (MEASUREMENT_STATUS 0).getD "")),
   { s with iteration := s.iteration + 1 })

/-- The mock dual pressure read: two independently sampled uniform values
(the oracle arguments u1 and u2), rounded to 9 and 8 decimal places, both
with status code 0; the state is untouched. -/
noncomputable def pressure_gauges (s : SimState) (u1 u2 : ℝ) :
    (ℝ × (Int × String) × ℝ × (Int × String)) × SimState :=
  ((pyRound u1 9, (0, (MEASUREMENT_STATUS 0).getD ""),
    pyRound u2 8, (0, (MEASUREMENT_STATUS 0).getD "")), s)

/-- The mock gauge identification: fixed TPR and IKR9 entries. -/
def gauge_identification (s : SimState) :
    (String × String × String × String) × SimState :=
  (("TPR", (GAUGE_IDS "TPR").getD "", "IKR9", (GAUGE_IDS "IKR9").getD ""), s)

/-- The mock pressure unit: the table entry of code 0. -/
def pressure_unit (s : SimState) : String × SimState :=
  ((PRESSURE_UNITS 0).getD "", s)

/-- The mock loopback test: always true. -/
def rs232_communication_test (s : SimState) : Bool × SimState :=
  (true, s)

/-- The mock open: set the flag and report the fixed status string. -/
def open_port (s : SimState) : String × SimState :=
  ("Mock serial port open", { s with isOpen := true })

/-- The mock close: clear the flag and report the fixed status string. -/
def close_port (s : SimState) : String × SimState :=
  ("Mock serial port closed", { s with isOpen := false })

end SimGaugeControllerx

/-! ## Helper lemmas -/

namespace GaugeControllerx

/-- Evaluation of send_command on a scripted reply line. -/
theorem send_command_eq (command r : String) (rest w : List String) :
    send_command command ⟨r :: rest, w⟩
      = (if r = cr_lf NAK then .error .NegativeAcknowledge
         else if r = cr_lf ACK then .ok ()
         else .error (.UnexpectedResponse r),
         ⟨rest, w ++ [cr_lf command]⟩) := by
  have hAN : cr_lf ACK ≠ cr_lf NAK := by decide
  by_cases h1 : r = cr_lf NAK <;> by_cases h2 : r = cr_lf ACK <;>
    simp [send_command, SerialPort.write, SerialPort.readline, h1, h2, hAN]

/-- Evaluation of send_command on an exhausted script (timeout). -/
theorem send_command_nil (command : String) (w : List String) :
    send_command command ⟨[], w⟩
      = (.error (.UnexpectedResponse ""), ⟨[], w ++ [cr_lf command]⟩) := by
  have h1 : ("" : String) ≠ cr_lf NAK := by decide
  have h2 : ("" : String) ≠ cr_lf ACK := by decide
  simp [send_command, SerialPort.write, SerialPort.readline, h1, h2]

/-- Evaluation of send_command on a positive acknowledge frame. -/
theorem send_command_of_ack (command : String) (rest w : List String) :
    send_command command ⟨cr_lf ACK :: rest, w⟩ = (.ok (), ⟨rest, w ++ [cr_lf command]⟩) := by
  rw [send_command_eq]
  rw [if_neg (by decide), if_pos rfl]

/-- Evaluation of get_data on a scripted reply line. -/
theorem get_data_cons (data : String) (rest w : List String) :
    get_data ⟨data :: rest, w⟩ = (pyRstrip (pyRstrip data LF) CR, ⟨rest, w ++ [ENQ]⟩) := rfl

end GaugeControllerx

/-- Dropping a replicated run of a character the predicate accepts. -/
theorem dropWhile_replicate_append (p : Char → Bool) (c : Char) (hc : p c = true)
    (n : ℕ) (l : List Char) :
    List.dropWhile p (List.replicate n c ++ l) = List.dropWhile p l := by
  induction n with
  | zero => simp
  | succ n ih => simp [List.replicate_succ, List.dropWhile_cons, hc, ih]

/-- dropWhile is the identity when the head does not satisfy the predicate. -/
theorem dropWhile_of_head_not (p : Char → Bool) (l : List Char)
    (h : ∀ a, l.head? = some a → p a = false) :
    List.dropWhile p l = l := by
  cases l with
  | nil => rfl
  | cons a t => simp [List.dropWhile_cons, h a rfl]

/-- pyRstrip is the identity on a string whose last character is not in the
strip set. -/
theorem pyRstrip_eq_self (s : String) (chars : String)
    (hlast : ∀ a, s.data.getLast? = some a → a ∉ chars.data) :
    pyRstrip s chars = s := by
  unfold pyRstrip
  rw [dropWhile_of_head_not, List.reverse_reverse]
  · intro a ha
    rw [List.head?_reverse] at ha
    simp [hlast a ha]

/-- pyRstrip removes exactly a trailing replicated run of a character in the
strip set, provided the base string does not itself end in the strip set. -/
theorem pyRstrip_append_run (s : String) (chars : String) (c : Char) (n : ℕ)
    (hc : c ∈ chars.data)
    (hlast : ∀ a, s.data.getLast? = some a → a ∉ chars.data) :
    pyRstrip (s ++ String.mk (List.replicate n c)) chars = s := by
  unfold pyRstrip
  rw [String.data_append]
  rw [show (String.mk (List.replicate n c)).data = List.replicate n c from rfl]
  rw [List.reverse_append, show (List.replicate n c).reverse = List.replicate n c by simp]
  rw [dropWhile_replicate_append _ c (by simpa using hc)]
  rw [dropWhile_of_head_not, List.reverse_reverse]
  · intro a ha
    rw [List.head?_reverse] at ha
    simpa using hlast a ha


/-! ## Claim theorems -/

namespace GaugeControllerx

/-- C1: a command exchange succeeds exactly when the reply line equals the
acknowledge byte framed with CR LF; the negative-acknowledge frame fails
with NegativeAcknowledge; any other reply, including the empty string a
timeout produces, fails with UnexpectedResponse carrying the received
bytes. -/
theorem send_command_ack_classification (command : String) (p : SerialPort) :
    ((send_command command p).1 = .ok () ↔ (p.readline).1 = cr_lf ACK)
    ∧ ((send_command command p).1 = .error .NegativeAcknowledge ↔ (p.readline).1 = cr_lf NAK)
    ∧ (∀ raw, (send_command command p).1 = .error (.UnexpectedResponse raw) ↔
        (raw = (p.readline).1 ∧ (p.readline).1 ≠ cr_lf ACK ∧ (p.readline).1 ≠ cr_lf NAK))
    ∧ (p.script = [] → (send_command command p).1 = .error (.UnexpectedResponse "")) := by
  obtain ⟨script, writes⟩ := p
  cases script with
  | nil =>
    have h1 : ("" : String) ≠ cr_lf NAK := by decide
    have h2 : ("" : String) ≠ cr_lf ACK := by decide
    refine ⟨?_, ?_, ?_, fun _ => ?_⟩ <;>
      simp [send_command_nil, SerialPort.readline, h1, h2, eq_comm]
  | cons r rest =>
    have hAN : cr_lf ACK ≠ cr_lf NAK := by decide
    by_cases hn : r = cr_lf NAK <;> by_cases ha : r = cr_lf ACK <;>
      refine ⟨?_, ?_, ?_, fun hS => by simp at hS⟩ <;>
      simp [send_command_eq, SerialPort.readline, hn, ha, hAN, eq_comm]

/-- C2 counterexample: on a reply whose terminator bytes arrive as line
feed then carriage return, get_data leaves the line feed in place, where
the claim predicts both control characters stripped regardless of order. -/
theorem get_data_lf_cr_counterexample :
    (get_data { script := ["5,1.2300E-3\n\x0d"], writes := [] }).1 = "5,1.2300E-3\n"
    ∧ "5,1.2300E-3\n" ≠ "5,1.2300E-3" :=
  ⟨by decide, by decide⟩

/-- C2 (amended): get_data removes the whole trailing run of line feeds and
then the whole trailing run of carriage returns, so a reply of payload
followed by carriage returns then line feeds, the payload ending in neither
control character, yields the payload verbatim; in particular the reply
5,1.2300E-3 CR LF yields 5,1.2300E-3. -/
theorem get_data_strips_trailing_lf_then_cr (core : String) (m n : ℕ)
    (rest w : List String)
    (hcr : core.data.getLast? ≠ some '\x0d')
    (hlf : core.data.getLast? ≠ some '\n') :
    get_data
        ⟨(core ++ String.mk (List.replicate m '\x0d') ++ String.mk (List.replicate n '\n')) :: rest, w⟩
      = (core, ⟨rest, w ++ [ENQ]⟩) := by
  rw [get_data_cons]
  have hstep1 : pyRstrip (core ++ String.mk (List.replicate m '\x0d')
      ++ String.mk (List.replicate n '\n')) LF = core ++ String.mk (List.replicate m '\x0d') := by
    refine pyRstrip_append_run _ _ _ _ (by decide) ?_
    intro a ha
    rw [String.data_append] at ha
    cases m with
    | zero =>
      simp only [List.replicate, String.mk] at ha
      rw [List.append_nil] at ha
      intro hmem
      refine hlf ?_
      rw [ha]
      congr 1
      simpa [LF] using hmem
    | succ k =>
      rw [show (String.mk (List.replicate (k + 1) '\x0d')).data = List.replicate (k + 1) '\x0d' from rfl,
        List.replicate_succ', ← List.append_assoc, List.getLast?_concat] at ha
      cases ha
      decide
  rw [hstep1]
  have hstep2 : pyRstrip (core ++ String.mk (List.replicate m '\x0d')) CR = core := by
    refine pyRstrip_append_run _ _ _ _ (by decide) ?_
    intro a ha hmem
    refine hcr ?_
    rw [ha]
    congr 1
    simpa [CR] using hmem
  rw [hstep2]

/-- C3: a gauge argument outside one and two fails with InvalidArgument and
leaves the transport untouched: zero writes and zero reads. -/
theorem pressure_gauge_invalid_argument (gauge : Int) (p : SerialPort)
    (h1 : gauge ≠ 1) (h2 : gauge ≠ 2) :
    pressure_gauge gauge p = (.error .InvalidArgument, p) := by
  unfold pressure_gauge
  rw [if_neg (fun h => h.elim h1 h2)]

end GaugeControllerx

/-- The empty field parses as no integer. -/
theorem pyInt_empty : pyInt "" = none := by decide

/-- The empty field parses as no float. -/
theorem pyFloat_empty : pyFloat "" = none := by decide

namespace GaugeControllerx

/-- The status table bounds its keys between 0 and 6. -/
theorem MEASUREMENT_STATUS_bounds {c : Int} {t : String}
    (h : MEASUREMENT_STATUS c = some t) : 0 ≤ c ∧ c ≤ 6 := by
  unfold MEASUREMENT_STATUS at h
  split_ifs at h <;> omega

/-- C4: for a valid gauge and a reply whose first two comma separated
fields parse as a known status code and a value, pressure_gauge writes
exactly one command frame followed by the enquiry byte and returns the
value with the status code and its table entry. -/
theorem pressure_gauge_valid_reading (gauge : Int) (payload : String)
    (rest w : List String) (c : Int) (v : ℚ) (t : String)
    (hg : gauge = 1 ∨ gauge = 2)
    (hc : pyInt ((pySplit (pyRstrip (pyRstrip payload LF) CR) ',').getD 0 "") = some c)
    (hv : pyFloat ((pySplit (pyRstrip (pyRstrip payload LF) CR) ',').getD 1 "") = some v)
    (ht : MEASUREMENT_STATUS c = some t) :
    pressure_gauge gauge ⟨cr_lf ACK :: payload :: rest, w⟩
      = (.ok (v, (c, t)), ⟨rest, w ++ [cr_lf ("PR" ++ toString gauge), ENQ]⟩) := by
  obtain ⟨f1, hgf, hpf⟩ :
      ∃ f1, (pySplit (pyRstrip (pyRstrip payload LF) CR) ',')[1]? = some f1
        ∧ pyFloat f1 = some v := by
    cases hgf : (pySplit (pyRstrip (pyRstrip payload LF) CR) ',')[1]? with
    | none =>
      rw [List.getD_eq_getElem?_getD, hgf, Option.getD_none, pyFloat_empty] at hv
      cases hv
    | some f1 =>
      refine ⟨f1, rfl, ?_⟩
      rwa [List.getD_eq_getElem?_getD, hgf, Option.getD_some] at hv
  unfold pressure_gauge
  rw [if_pos hg, send_command_of_ack]
  simp only [get_data_cons, hc, hgf, hpf, ht, List.append_assoc, List.cons_append,
    List.nil_append]

end GaugeControllerx

namespace GaugeControllerx

/-- Witness for C4 at gauge 1 and the payload of the specification. -/
theorem pressure_gauge_valid_reading_witness :
    ((1 : Int) = 1 ∨ (1 : Int) = 2)
    ∧ pyInt ((pySplit (pyRstrip (pyRstrip "0,1.0000E-5" LF) CR) ',').getD 0 "") = some 0
    ∧ pyFloat ((pySplit (pyRstrip (pyRstrip "0,1.0000E-5" LF) CR) ',').getD 1 "") = some (mkRat 1 100000)
    ∧ MEASUREMENT_STATUS 0 = some "Measurement data okay"
    ∧ pressure_gauge 1 ⟨cr_lf ACK :: "0,1.0000E-5" :: [], []⟩
        = (.ok (mkRat 1 100000, (0, "Measurement data okay")),
           ⟨[], [] ++ [cr_lf ("PR" ++ toString (1 : Int)), ENQ]⟩) :=
  ⟨Or.inl rfl, by decide, by decide, by decide,
   pressure_gauge_valid_reading 1 "0,1.0000E-5" [] [] 0 (mkRat 1 100000)
     "Measurement data okay" (Or.inl rfl) (by decide) (by decide) (by decide)⟩

/-- C5: a Reading returned by pressure_gauge or pressure_gauges always
carries a status code that is a key of the measurement status table, between
0 and 6, with the matching table text; and a payload whose status code is
outside the table never yields a Reading. -/
theorem reading_status_code_in_table :
    (∀ (g : Int) (p : SerialPort) (v : ℚ) (c : Int) (t : String),
        (pressure_gauge g p).1 = .ok (v, (c, t)) →
          MEASUREMENT_STATUS c = some t ∧ 0 ≤ c ∧ c ≤ 6)
    ∧ (∀ (p : SerialPort) (v1 v2 : ℚ) (c1 c2 : Int) (t1 t2 : String),
        (pressure_gauges p).1 = .ok (v1, (c1, t1), v2, (c2, t2)) →
          (MEASUREMENT_STATUS c1 = some t1 ∧ 0 ≤ c1 ∧ c1 ≤ 6)
          ∧ (MEASUREMENT_STATUS c2 = some t2 ∧ 0 ≤ c2 ∧ c2 ≤ 6))
    ∧ (∀ (g : Int) (payload : String) (rest w : List String) (c : Int),
        pyInt ((pySplit (pyRstrip (pyRstrip payload LF) CR) ',').getD 0 "") = some c →
        MEASUREMENT_STATUS c = none →
        ∀ r, (pressure_gauge g ⟨cr_lf ACK :: payload :: rest, w⟩).1 ≠ .ok r)
    ∧ (∀ (payload : String) (rest w : List String) (c : Int),
        (pyInt ((pySplit (pyRstrip (pyRstrip payload LF) CR) ',').getD 0 "") = some c
          ∨ pyInt ((pySplit (pyRstrip (pyRstrip payload LF) CR) ',').getD 2 "") = some c) →
        MEASUREMENT_STATUS c = none →
        ∀ r, (pressure_gauges ⟨cr_lf ACK :: payload :: rest, w⟩).1 ≠ .ok r) := by
  refine ⟨?_, ?_, ?_, ?_⟩
  · intro g p v c t h
    unfold pressure_gauge at h
    split at h
    case isFalse => exact absurd h (by simp)
    split at h
    case h_1 => exact absurd h (by simp)
    rename_i a p1 heq
    rcases hgd : get_data p1 with ⟨reply, p2⟩
    rw [hgd] at h
    repeat' split at h
    all_goals simp at h
    rename_i hms
    obtain ⟨rfl, rfl, rfl⟩ := h
    exact ⟨hms, MEASUREMENT_STATUS_bounds hms⟩
  · intro p v1 v2 c1 c2 t1 t2 h
    unfold pressure_gauges at h
    split at h
    case h_1 => exact absurd h (by simp)
    rename_i a p1 heq
    rcases hgd : get_data p1 with ⟨reply, p2⟩
    rw [hgd] at h
    repeat' split at h
    all_goals simp at h
    obtain ⟨rfl, ⟨rfl, rfl⟩, rfl, rfl, rfl⟩ := h
    exact ⟨⟨by assumption, MEASUREMENT_STATUS_bounds (by assumption)⟩,
           by assumption, MEASUREMENT_STATUS_bounds (by assumption)⟩
  · intro g payload rest w c hc hnone r
    by_cases hg : g = 1 ∨ g = 2
    · unfold pressure_gauge
      rw [if_pos hg, send_command_of_ack]
      simp only [get_data_cons, hc]
      cases hgf : (pySplit (pyRstrip (pyRstrip payload LF) CR) ',')[1]? with
      | none => simp [hgf]
      | some f1 =>
        cases hpf : pyFloat f1 with
        | none => simp [hgf, hpf]
        | some v1 => simp [hgf, hpf, hnone]
    · unfold pressure_gauge
      rw [if_neg hg]
      simp
  · intro payload rest w c hc hnone r
    unfold pressure_gauges
    rw [send_command_of_ack]
    simp only [get_data_cons]
    intro hok
    repeat' split at hok
    all_goals simp at hok
    all_goals rcases hc with hc | hc <;> simp_all [List.getD_eq_getElem?_getD]

end GaugeControllerx

namespace GaugeControllerx

/-- A PR reply whose first field is no integer or whose second field is
missing or no float makes pressure_gauge fail with MalformedPayload. -/
theorem pressure_gauge_parse_failure (gauge : Int) (payload : String)
    (rest w : List String)
    (hg : gauge = 1 ∨ gauge = 2)
    (h : pyInt ((pySplit (pyRstrip (pyRstrip payload LF) CR) ',').getD 0 "") = none
       ∨ pyFloat ((pySplit (pyRstrip (pyRstrip payload LF) CR) ',').getD 1 "") = none) :
    (pressure_gauge gauge ⟨cr_lf ACK :: payload :: rest, w⟩).1
      = .error (.MalformedPayload (pyRstrip (pyRstrip payload LF) CR)) := by
  unfold pressure_gauge
  rw [if_pos hg, send_command_of_ack]
  simp only [get_data_cons]
  repeat' split
  all_goals try rfl
  all_goals rcases h with h | h <;> simp_all [List.getD_eq_getElem?_getD]

/-- A PRX reply any of whose four fields is missing or fails to parse makes
pressure_gauges fail with MalformedPayload. -/
theorem pressure_gauges_parse_failure (payload : String) (rest w : List String)
    (h : pyInt ((pySplit (pyRstrip (pyRstrip payload LF) CR) ',').getD 0 "") = none
       ∨ pyFloat ((pySplit (pyRstrip (pyRstrip payload LF) CR) ',').getD 1 "") = none
       ∨ pyInt ((pySplit (pyRstrip (pyRstrip payload LF) CR) ',').getD 2 "") = none
       ∨ pyFloat ((pySplit (pyRstrip (pyRstrip payload LF) CR) ',').getD 3 "") = none) :
    (pressure_gauges ⟨cr_lf ACK :: payload :: rest, w⟩).1
      = .error (.MalformedPayload (pyRstrip (pyRstrip payload LF) CR)) := by
  unfold pressure_gauges
  rw [send_command_of_ack]
  simp only [get_data_cons]
  repeat' split
  all_goals try rfl
  all_goals rcases h with h | h | h | h <;> simp_all [List.getD_eq_getElem?_getD]

/-- A TID reply with other than exactly two comma separated fields makes
gauge_identification fail with MalformedPayload. -/
theorem gauge_identification_field_count (payload : String) (rest w : List String)
    (h : (pySplit (pyRstrip (pyRstrip payload LF) CR) ',').length ≠ 2) :
    (gauge_identification ⟨cr_lf ACK :: payload :: rest, w⟩).1
      = .error (.MalformedPayload (pyRstrip (pyRstrip payload LF) CR)) := by
  unfold gauge_identification
  rw [send_command_of_ack]
  simp only [get_data_cons]
  repeat' split
  all_goals try rfl
  all_goals simp_all

end GaugeControllerx

namespace GaugeControllerx

/-- Witness for C2 (amended) at the specification example reply. -/
theorem get_data_strips_witness :
    ("5,1.2300E-3" : String).data.getLast? ≠ some '\x0d'
    ∧ ("5,1.2300E-3" : String).data.getLast? ≠ some '\n'
    ∧ get_data
        ⟨("5,1.2300E-3" ++ String.mk (List.replicate 1 '\x0d') ++ String.mk (List.replicate 1 '\n')) :: [], []⟩
      = ("5,1.2300E-3", ⟨[], [] ++ [ENQ]⟩) :=
  ⟨by decide, by decide,
   get_data_strips_trailing_lf_then_cr "5,1.2300E-3" 1 1 [] [] (by decide) (by decide)⟩

/-- Witness for C3 at gauge 3 on an untouched transport. -/
theorem pressure_gauge_invalid_argument_witness :
    ((3 : Int) ≠ 1) ∧ ((3 : Int) ≠ 2)
    ∧ pressure_gauge 3 ⟨[cr_lf ACK, "0,1.0000E-5"], []⟩
        = (.error .InvalidArgument, ⟨[cr_lf ACK, "0,1.0000E-5"], []⟩) :=
  ⟨by decide, by decide,
   pressure_gauge_invalid_argument 3 ⟨[cr_lf ACK, "0,1.0000E-5"], []⟩ (by decide) (by decide)⟩

/-- C6: pressure_gauges is atomic: the four-field payload of the
specification yields the two Readings with status codes 0 and 2, and a
payload any of whose four fields fails to parse fails the whole call,
returning no Reading. -/
theorem pressure_gauges_atomic :
    (pressure_gauges ⟨[cr_lf ACK, "0,1.0E-6,2,3.4E-3"], []⟩
       = (.ok (mkRat 1 1000000, (0, "Measurement data okay"),
               mkRat 17 5000, (2, "Overrange")),
          ⟨[], [cr_lf "PRX", ENQ]⟩))
    ∧ (∀ (payload : String) (rest w : List String),
        (pyInt ((pySplit (pyRstrip (pyRstrip payload LF) CR) ',').getD 0 "") = none
          ∨ pyFloat ((pySplit (pyRstrip (pyRstrip payload LF) CR) ',').getD 1 "") = none
          ∨ pyInt ((pySplit (pyRstrip (pyRstrip payload LF) CR) ',').getD 2 "") = none
          ∨ pyFloat ((pySplit (pyRstrip (pyRstrip payload LF) CR) ',').getD 3 "") = none) →
        ∃ e, (pressure_gauges ⟨cr_lf ACK :: payload :: rest, w⟩).1 = .error e) :=
  ⟨by decide, fun payload rest w h => ⟨_, pressure_gauges_parse_failure payload rest w h⟩⟩

/-- C7 counterexample: the three-field payload 0,1.0E-5,junk does not match
the two-field PR1 parse rule, yet pressure_gauge succeeds, ignoring the
extra field instead of failing with MalformedPayload. -/
theorem pressure_gauge_extra_field_counterexample :
    (pySplit (pyRstrip (pyRstrip "0,1.0E-5,junk" LF) CR) ',').length = 3
    ∧ (pressure_gauge 1 ⟨[cr_lf ACK, "0,1.0E-5,junk"], []⟩).1
        = .ok (mkRat 1 100000, (0, "Measurement data okay")) :=
  ⟨by decide, by decide⟩

/-- C7 (amended): a data payload with too few comma separated fields, or
whose consumed fields fail to parse, fails with MalformedPayload: PR1 and
PR2 need an integer first field and a float second field, PRX needs the
four fields of its rule, and TID needs exactly two fields; extra trailing
fields beyond those consumed are ignored by PR1, PR2 and PRX. -/
theorem malformed_payload_fails :
    (∀ (gauge : Int) (payload : String) (rest w : List String),
        (gauge = 1 ∨ gauge = 2) →
        (pyInt ((pySplit (pyRstrip (pyRstrip payload LF) CR) ',').getD 0 "") = none
          ∨ pyFloat ((pySplit (pyRstrip (pyRstrip payload LF) CR) ',').getD 1 "") = none) →
        (pressure_gauge gauge ⟨cr_lf ACK :: payload :: rest, w⟩).1
          = .error (.MalformedPayload (pyRstrip (pyRstrip payload LF) CR)))
    ∧ (∀ (payload : String) (rest w : List String),
        (pyInt ((pySplit (pyRstrip (pyRstrip payload LF) CR) ',').getD 0 "") = none
          ∨ pyFloat ((pySplit (pyRstrip (pyRstrip payload LF) CR) ',').getD 1 "") = none
          ∨ pyInt ((pySplit (pyRstrip (pyRstrip payload LF) CR) ',').getD 2 "") = none
          ∨ pyFloat ((pySplit (pyRstrip (pyRstrip payload LF) CR) ',').getD 3 "") = none) →
        (pressure_gauges ⟨cr_lf ACK :: payload :: rest, w⟩).1
          = .error (.MalformedPayload (pyRstrip (pyRstrip payload LF) CR)))
    ∧ (∀ (payload : String) (rest w : List String),
        (pySplit (pyRstrip (pyRstrip payload LF) CR) ',').length ≠ 2 →
        (gauge_identification ⟨cr_lf ACK :: payload :: rest, w⟩).1
          = .error (.MalformedPayload (pyRstrip (pyRstrip payload LF) CR))) :=
  ⟨fun gauge payload rest w hg h => pressure_gauge_parse_failure gauge payload rest w hg h,
   fun payload rest w h => pressure_gauges_parse_failure payload rest w h,
   fun payload rest w h => gauge_identification_field_count payload rest w h⟩

end GaugeControllerx

/-- From a getLast bound on a list to non-membership in a singleton strip
set. -/
theorem notMem_of_getLast_ne (l : List Char) (c : Char) (chars : List Char)
    (hchars : ∀ a ∈ chars, a = c) (h : l.getLast? ≠ some c) :
    ∀ a, l.getLast? = some a → a ∉ chars := by
  intro a ha hmem
  exact h (by rw [ha, hchars a hmem])

namespace GaugeControllerx

/-- Stripping the frame terminator from an echoed line that does not itself
end in a carriage return recovers the line. -/
theorem strip_crlf_echo (e : String) (hcr : e.data.getLast? ≠ some '\x0d') :
    pyRstrip (pyRstrip (cr_lf e) LF) CR = e := by
  have hsplit : cr_lf e = (e ++ CR) ++ String.mk (List.replicate 1 '\n') := by
    rw [cr_lf, String.append_assoc, String.append_assoc]
    rfl
  have h1 : pyRstrip (cr_lf e) LF = e ++ CR := by
    rw [hsplit]
    refine pyRstrip_append_run _ _ _ _ (by decide) ?_
    intro a ha hmem
    rw [String.data_append, show CR.data = ['\x0d'] from rfl, List.getLast?_concat] at ha
    cases ha
    simp [LF] at hmem
  rw [h1, show CR = String.mk (List.replicate 1 '\x0d') from by decide]
  refine pyRstrip_append_run _ _ _ _ (by decide) ?_
  exact notMem_of_getLast_ne _ _ _ (by decide) hcr

/-- Stripping trailing enquiry bytes from a line that does not end in one
leaves it unchanged. -/
theorem pyRstrip_enq_self (e : String) (h : e.data.getLast? ≠ some '\x05') :
    pyRstrip e ENQ = e :=
  pyRstrip_eq_self e ENQ (notMem_of_getLast_ne _ _ _ (by decide) h)

/-- C8: the loopback test exchanges the acknowledged RST command, the
enquiry byte, the buffer drain, the two probe writes each followed by a
data poll, and the framed end-of-text byte, and returns true exactly when
the two echoed lines concatenate to the probe string a1. -/
theorem rs232_test_echo (garbage e1 e2 : String) (rest w : List String)
    (h1 : e1.data.getLast? ≠ some '\x0d') (h2 : e1.data.getLast? ≠ some '\x05')
    (h3 : e2.data.getLast? ≠ some '\x0d') (h4 : e2.data.getLast? ≠ some '\x05') :
    rs232_communication_test
        ⟨cr_lf ACK :: garbage :: cr_lf e1 :: cr_lf e2 :: cr_lf ACK :: rest, w⟩
      = (.ok (decide (e1 ++ e2 = "a1")),
         ⟨rest, w ++ [cr_lf "RST", ENQ, "a", ENQ, "1", ENQ, cr_lf ETX]⟩) := by
  unfold rs232_communication_test
  rw [send_command_of_ack]
  simp only [SerialPort.write, clear_output_buffer, SerialPort.readline, get_data_cons,
    send_command_of_ack, strip_crlf_echo e1 h1, strip_crlf_echo e2 h3,
    pyRstrip_enq_self e1 h2, pyRstrip_enq_self e2 h4, List.append_assoc, List.cons_append,
    List.nil_append]

end GaugeControllerx

namespace GaugeControllerx

/-- Witness for C8 at the echoes a and 1, which make the test succeed. -/
theorem rs232_test_echo_witness :
    ("a" : String).data.getLast? ≠ some '\x0d'
    ∧ ("a" : String).data.getLast? ≠ some '\x05'
    ∧ ("1" : String).data.getLast? ≠ some '\x0d'
    ∧ ("1" : String).data.getLast? ≠ some '\x05'
    ∧ rs232_communication_test
        ⟨cr_lf ACK :: "junk" :: cr_lf "a" :: cr_lf "1" :: cr_lf ACK :: [], []⟩
      = (.ok (decide (("a" : String) ++ "1" = "a1")),
         ⟨[], [] ++ [cr_lf "RST", ENQ, "a", ENQ, "1", ENQ, cr_lf ETX]⟩) :=
  ⟨by decide, by decide, by decide, by decide,
   rs232_test_echo "junk" "a" "1" [] [] (by decide) (by decide) (by decide) (by decide)⟩

end GaugeControllerx

namespace SimGaugeControllerx

/-- C9: the mock pressure read returns the floor plus decay plus the
bounded noise sample, rounded to 9 decimal places, always with status code
0 and the okay text; the iteration counter advances by exactly one per call
and no operation of the mock ever resets it. -/
theorem sim_pressure_gauge_spec (s : SimState) (noise : ℝ)
    (h : |noise| ≤ noise_amplitude) :
    (pressure_gauge s noise).1
        = (pyRound (P_min + A * Real.exp (-k * (s.iteration : ℝ)) + noise) 9,
           (0, "Measurement data okay"))
    ∧ (pressure_gauge s noise).2.iteration = s.iteration + 1
    ∧ (pressure_gauge s noise).2.isOpen = s.isOpen
    ∧ (∀ (t : SimState) (u1 u2 : ℝ), (pressure_gauges t u1 u2).2 = t)
    ∧ (∀ t : SimState, (gauge_identification t).2 = t)
    ∧ (∀ t : SimState, (pressure_unit t).2 = t)
    ∧ (∀ t : SimState, (rs232_communication_test t).2 = t)
    ∧ (∀ t : SimState, (open_port t).2.iteration = t.iteration)
    ∧ (∀ t : SimState, (close_port t).2.iteration = t.iteration) :=
  ⟨rfl, rfl, rfl, fun _ _ _ => rfl, fun _ => rfl, fun _ => rfl, fun _ => rfl,
   fun _ => rfl, fun _ => rfl⟩

/-- Witness for C9 at the closed fresh state and a zero noise sample. -/
theorem sim_pressure_gauge_spec_witness :
    |(0 : ℝ)| ≤ noise_amplitude
    ∧ ((pressure_gauge ⟨true, 0⟩ 0).1
        = (pyRound (P_min + A * Real.exp (-k * ((0 : Nat) : ℝ)) + 0) 9,
           (0, "Measurement data okay"))
      ∧ (pressure_gauge ⟨true, 0⟩ 0).2.iteration = 0 + 1
      ∧ (pressure_gauge ⟨true, 0⟩ 0).2.isOpen = true
      ∧ (∀ (t : SimState) (u1 u2 : ℝ), (pressure_gauges t u1 u2).2 = t)
      ∧ (∀ t : SimState, (gauge_identification t).2 = t)
      ∧ (∀ t : SimState, (pressure_unit t).2 = t)
      ∧ (∀ t : SimState, (rs232_communication_test t).2 = t)
      ∧ (∀ t : SimState, (open_port t).2.iteration = t.iteration)
      ∧ (∀ t : SimState, (close_port t).2.iteration = t.iteration)) :=
  ⟨by norm_num [noise_amplitude],
   sim_pressure_gauge_spec ⟨true, 0⟩ 0 (by norm_num [noise_amplitude])⟩

/-- C10: no mock command consults the open flag: every command returns the
same result whatever the flag, even after close_port, and open_port and
close_port only set the flag and return their fixed status strings. -/
theorem sim_commands_ignore_open_flag :
    ∀ (b b' : Bool) (n : Nat) (noise u1 u2 : ℝ),
      (pressure_gauge ⟨b, n⟩ noise).1 = (pressure_gauge ⟨b', n⟩ noise).1
      ∧ (pressure_gauge ⟨b, n⟩ noise).2 = ⟨b, n + 1⟩
      ∧ (pressure_gauges ⟨b, n⟩ u1 u2).1 = (pressure_gauges ⟨b', n⟩ u1 u2).1
      ∧ (pressure_gauges ⟨b, n⟩ u1 u2).2 = ⟨b, n⟩
      ∧ (gauge_identification ⟨b, n⟩).1 = (gauge_identification ⟨b', n⟩).1
      ∧ (gauge_identification ⟨b, n⟩).2 = ⟨b, n⟩
      ∧ (pressure_unit ⟨b, n⟩).1 = (pressure_unit ⟨b', n⟩).1
      ∧ (pressure_unit ⟨b, n⟩).2 = ⟨b, n⟩
      ∧ (rs232_communication_test ⟨b, n⟩).1 = true
      ∧ (rs232_communication_test ⟨b, n⟩).2 = ⟨b, n⟩
      ∧ open_port ⟨b, n⟩ = ("Mock serial port open", ⟨true, n⟩)
      ∧ close_port ⟨b, n⟩ = ("Mock serial port closed", ⟨false, n⟩) :=
  fun _ _ _ _ _ _ =>
    ⟨rfl, rfl, rfl, rfl, rfl, rfl, rfl, rfl, rfl, rfl, rfl, rfl⟩

end SimGaugeControllerx
